import Mathlib

/-!
Verification of the runtime orchestration core of the android-clat daemon
(`clatd.c`): MTU clamping in `configure_interface`, frame demultiplexing in
`read_packet`, the dispatch loop `event_loop`, the uplink prefix poll
`interface_poll`, privilege dropping in `drop_root`, and the forwarding
toggle `set_forwarding`.

The C code is embedded shallowly: every function is translated to a pure
Lean function over explicit arguments standing for the C globals, syscall
results and buffer contents.  C `int` values are modelled as `Int`,
buffers as `List Nat` of bytes.  Side effects (syscalls, route changes,
log messages, calls into the translator) are returned as explicit traces.
-/

namespace Clatd

/-- `MTU_DELTA` from clatd.c: 40 bytes IPv6 header - 20 bytes IPv4 header
+ 8 bytes fragment header. -/
def MTU_DELTA : Int := 28

/-- Embedding of the IPv6 MTU clamping sequence of `configure_interface`
(clatd.c lines 284-295).  `maxmtu` stands for the compile-time constant
`MAXMTU` (defined in a header outside this file), `getif` for the value
returned by `getifmtu(Global_Clatd_Config.default_pdp_interface)`, and
`mtu` for the configured `Global_Clatd_Config.mtu` on entry.  The three
`if`s run in sequence, each rewriting the global `mtu` field. -/
def configure_interface_mtu (maxmtu getif mtu : Int) : Int :=
  let m1 := if mtu > maxmtu then maxmtu else mtu
  let m2 := if m1 ≤ 0 then getif else m1
  if m2 < 1280 then 1280 else m2

/-- Embedding of the IPv4 MTU derivation of `configure_interface`
(clatd.c lines 297-301).  `mtu` is the already-clamped IPv6 MTU,
`ipv4mtu` the configured `Global_Clatd_Config.ipv4mtu` on entry. -/
def configure_interface_ipv4mtu (mtu ipv4mtu : Int) : Int :=
  if ipv4mtu ≤ 0 ∨ ipv4mtu > mtu - MTU_DELTA then mtu - MTU_DELTA else ipv4mtu

/-- Claim C3: a configured IPv6 MTU above `MAXMTU` is clamped to `MAXMTU`;
a value ≤ 0 is replaced by the live uplink MTU (raised to 1280 when that
is below 1280); a positive value below 1280 is raised to 1280; exactly
1280 is kept; 1279 is raised to 1280.  Stated for any `MAXMTU ≥ 1280`. -/
theorem C3_ipv6_mtu_clamping (maxmtu getif mtu : Int) (h : 1280 ≤ maxmtu) :
    (maxmtu < mtu → configure_interface_mtu maxmtu getif mtu = maxmtu) ∧
    (mtu ≤ 0 → configure_interface_mtu maxmtu getif mtu =
      (if getif < 1280 then 1280 else getif)) ∧
    (0 < mtu → mtu < 1280 → configure_interface_mtu maxmtu getif mtu = 1280) ∧
    configure_interface_mtu maxmtu getif 1280 = 1280 ∧
    configure_interface_mtu maxmtu getif 1279 = 1280 := by
  refine ⟨?_, ?_, ?_, ?_, ?_⟩ <;>
    (intros; simp only [configure_interface_mtu]; split_ifs <;> omega)

/-- Witness for C3 at `MAXMTU = 1500`, uplink MTU 1400, configured MTU 2000. -/
theorem C3_ipv6_mtu_clamping_witness :
    (1280 : Int) ≤ 1500 ∧
    ((1500 < (2000 : Int) → configure_interface_mtu 1500 1400 2000 = 1500) ∧
    ((2000 : Int) ≤ 0 → configure_interface_mtu 1500 1400 2000 =
      (if (1400 : Int) < 1280 then 1280 else 1400)) ∧
    ((0 : Int) < 2000 → (2000 : Int) < 1280 →
      configure_interface_mtu 1500 1400 2000 = 1280) ∧
    configure_interface_mtu 1500 1400 1280 = 1280 ∧
    configure_interface_mtu 1500 1400 1279 = 1280) :=
  ⟨by norm_num, C3_ipv6_mtu_clamping 1500 1400 2000 (by norm_num)⟩

/-- Counterexample to claim C4: with `MAXMTU = 1500`, a configured MTU of 0
and a live uplink MTU of 2000, the effective IPv6 MTU is 2000, outside
`[1280, MAXMTU]`.  The `MAXMTU` clamp runs before the uplink-MTU
substitution, so the substituted value is never clamped down. -/
theorem C4_counterexample :
    configure_interface_mtu 1500 2000 0 = 2000 ∧
    ¬ configure_interface_mtu 1500 2000 0 ≤ 1500 := by
  constructor
  · rfl
  · intro h
    rw [show configure_interface_mtu 1500 2000 0 = 2000 from rfl] at h
    omega

/-- Claim C4 as amended: the effective IPv6 MTU is always at least 1280,
and it is at most `MAXMTU` whenever the configured value is positive or
the live uplink MTU itself does not exceed `MAXMTU`; a non-positive
configured value together with an uplink MTU above `MAXMTU` escapes the
upper clamp. -/
theorem C4_amended_ipv6_mtu_bounds (maxmtu getif mtu : Int) (h : 1280 ≤ maxmtu) :
    1280 ≤ configure_interface_mtu maxmtu getif mtu ∧
    ((0 < mtu ∨ getif ≤ maxmtu) → configure_interface_mtu maxmtu getif mtu ≤ maxmtu) := by
  constructor
  · simp only [configure_interface_mtu]
    split_ifs <;> omega
  · rintro (hpos | hgetif) <;>
      (simp only [configure_interface_mtu]; split_ifs <;> omega)

/-- Witness for the amended C4 at `MAXMTU = 1500`, uplink MTU 1400,
configured MTU 0. -/
theorem C4_amended_ipv6_mtu_bounds_witness :
    (1280 : Int) ≤ 1500 ∧
    (1280 ≤ configure_interface_mtu 1500 1400 0 ∧
    (((0 : Int) < 0 ∨ (1400 : Int) ≤ 1500) → configure_interface_mtu 1500 1400 0 ≤ 1500)) :=
  ⟨by norm_num, C4_amended_ipv6_mtu_bounds 1500 1400 0 (by norm_num)⟩

/-- Claim C5: an IPv4 MTU that is ≤ 0 or exceeds the IPv6 MTU minus 28 is
replaced by exactly the IPv6 MTU minus 28; a value already in
`(0, mtu - 28]` is kept; the result never exceeds the IPv6 MTU minus 28. -/
theorem C5_ipv4_mtu_derivation (mtu ipv4mtu : Int) :
    configure_interface_ipv4mtu mtu ipv4mtu ≤ mtu - 28 ∧
    ((ipv4mtu ≤ 0 ∨ ipv4mtu > mtu - 28) →
      configure_interface_ipv4mtu mtu ipv4mtu = mtu - 28) ∧
    ((0 < ipv4mtu ∧ ipv4mtu ≤ mtu - 28) →
      configure_interface_ipv4mtu mtu ipv4mtu = ipv4mtu) := by
  unfold configure_interface_ipv4mtu MTU_DELTA
  refine ⟨?_, ?_, ?_⟩
  · split <;> omega
  · intro hc
    rw [if_pos hc]
  · intro hc
    rw [if_neg (by omega)]

/-! ## read_packet (clatd.c lines 323-365) -/

/-- `ETH_P_IP` from linux/if_ether.h. -/
def ETH_P_IP : Nat := 0x0800

/-- `ETH_P_IPV6` from linux/if_ether.h. -/
def ETH_P_IPV6 : Nat := 0x86DD

/-- `sizeof(struct tun_pi)`: a 16-bit flags field followed by a 16-bit
big-endian protocol field, 4 bytes in total (linux/if_tun.h). -/
def header_size : Nat := 4

/-- The descriptors of `struct tun_data` that `read_packet` consults:
`write_fd6` is the raw IPv6 send socket, `fd4` the IPv4-facing tun device,
`read_fd6` the IPv6-facing tun device. -/
structure tun_data where
  read_fd6 : Int
  fd4 : Int
  write_fd6 : Int
deriving DecidableEq

/-- Outcome of the `read(active_fd, packet, PACKETLEN)` call at the top of
`read_packet`: a negative return (error), zero (device removed), or
`readlen` bytes of data. -/
inductive ReadOutcome where
| err : ReadOutcome
| eof : ReadOutcome
| data : List Nat → ReadOutcome
deriving DecidableEq

/-- The log messages `read_packet` can emit, in source order. -/
inductive LogEvent where
| read_error : LogEvent
| tun_removed : LogEvent
| short_read : LogEvent
| unexpected_flags : LogEvent
| unknown_packet_type : LogEvent
deriving DecidableEq

/-- One call to the external translator:
`translate_packet(fd, (proto == ETH_P_IP), packet + header_size,
readlen - header_size)`.  `dir` is literally the second argument,
`proto == ETH_P_IP`. -/
structure TranslateCall where
  fd : Int
  dir : Bool
  payload : List Nat
deriving DecidableEq

/-- `tun_header->flags`: the first two bytes of the frame, a host-order
(little-endian) 16-bit field. -/
def tun_pi_flags (bytes : List Nat) : Nat :=
  bytes.getD 0 0 + 256 * bytes.getD 1 0

/-- `ntohs(tun_header->proto)`: bytes 2 and 3 of the frame, big-endian. -/
def tun_pi_proto (bytes : List Nat) : Nat :=
  256 * bytes.getD 2 0 + bytes.getD 3 0

/-- Embedding of `read_packet` (clatd.c lines 323-365).  `running` is the
global `running` flag on entry; the result is the flag on exit, the log
messages emitted, and the translator call made, if any.  A short read
(fewer bytes than `sizeof(struct tun_pi)`) is dropped; nonzero flags only
log a warning; the protocol tag selects the destination descriptor, and an
unknown tag drops the frame. -/
def read_packet (t : tun_data) (r : ReadOutcome) (running : Bool) :
    Bool × List LogEvent × Option TranslateCall :=
  match r with
  | .err => (running, [.read_error], none)
  | .eof => (false, [.tun_removed], none)
  | .data bytes =>
    if bytes.length < header_size then
      (running, [.short_read], none)
    else
      let flagsLog : List LogEvent :=
        if tun_pi_flags bytes ≠ 0 then [.unexpected_flags] else []
      let proto := tun_pi_proto bytes
      if proto = ETH_P_IP then
        (running, flagsLog, some ⟨t.write_fd6, true, bytes.drop header_size⟩)
      else if proto = ETH_P_IPV6 then
        (running, flagsLog, some ⟨t.fd4, false, bytes.drop header_size⟩)
      else
        (running, flagsLog ++ [.unknown_packet_type], none)

/-- Counterexample to claim C1: for the IPv4-tagged frame
`[0, 0, 0x08, 0x00, 9]` the dispatch does go to the raw IPv6 socket
(`write_fd6 = 5`), but the direction argument passed to the translator —
literally `(proto == ETH_P_IP)` — is `true`, not `false` as the claim
states. -/
theorem C1_counterexample :
    (read_packet ⟨3, 4, 5⟩ (.data [0, 0, 8, 0, 9]) true).2.2 =
      some ⟨5, true, [9]⟩ ∧
    (read_packet ⟨3, 4, 5⟩ (.data [0, 0, 8, 0, 9]) true).2.2 ≠
      some ⟨5, false, [9]⟩ := by
  constructor
  · rfl
  · decide

/-- Claim C1 as amended: an IPv4-tagged frame is dispatched to the raw
IPv6 send socket with direction argument `true` (the code's flag means
"payload is IPv4, translate to IPv6"); an IPv6-tagged frame is dispatched
to the IPv4-facing device descriptor with direction argument `false`; any
other tag makes no translator call.  The payload is the frame with the
4-byte framing header stripped. -/
theorem C1_amended_dispatch (t : tun_data) (running : Bool) (bytes : List Nat)
    (h : header_size ≤ bytes.length) :
    (tun_pi_proto bytes = ETH_P_IP →
      (read_packet t (.data bytes) running).2.2 =
        some ⟨t.write_fd6, true, bytes.drop header_size⟩) ∧
    (tun_pi_proto bytes = ETH_P_IPV6 →
      (read_packet t (.data bytes) running).2.2 =
        some ⟨t.fd4, false, bytes.drop header_size⟩) ∧
    (tun_pi_proto bytes ≠ ETH_P_IP → tun_pi_proto bytes ≠ ETH_P_IPV6 →
      (read_packet t (.data bytes) running).2.2 = none) := by
  refine ⟨?_, ?_, ?_⟩ <;> intros <;> simp only [read_packet] <;> split_ifs <;>
    first
      | rfl
      | omega
      | simp_all [ETH_P_IP, ETH_P_IPV6]

/-- Witness for the amended C1 on the IPv6-tagged frame
`[0, 0, 0x86, 0xDD, 7]`. -/
theorem C1_amended_dispatch_witness :
    header_size ≤ [0, 0, 0x86, 0xDD, 7].length ∧
    ((tun_pi_proto [0, 0, 0x86, 0xDD, 7] = ETH_P_IP →
      (read_packet ⟨3, 4, 5⟩ (.data [0, 0, 0x86, 0xDD, 7]) true).2.2 =
        some ⟨5, true, [0, 0, 0x86, 0xDD, 7].drop header_size⟩) ∧
    (tun_pi_proto [0, 0, 0x86, 0xDD, 7] = ETH_P_IPV6 →
      (read_packet ⟨3, 4, 5⟩ (.data [0, 0, 0x86, 0xDD, 7]) true).2.2 =
        some ⟨4, false, [0, 0, 0x86, 0xDD, 7].drop header_size⟩) ∧
    (tun_pi_proto [0, 0, 0x86, 0xDD, 7] ≠ ETH_P_IP →
      tun_pi_proto [0, 0, 0x86, 0xDD, 7] ≠ ETH_P_IPV6 →
      (read_packet ⟨3, 4, 5⟩ (.data [0, 0, 0x86, 0xDD, 7]) true).2.2 = none)) :=
  ⟨by decide, C1_amended_dispatch ⟨3, 4, 5⟩ true [0, 0, 0x86, 0xDD, 7] (by decide)⟩

/-- Claim C9: a positive-length frame shorter than the framing header is
dropped with a log message and no translator call, whatever its bytes;
the running flag is untouched. -/
theorem C9_short_frame_dropped (t : tun_data) (running : Bool) (bytes : List Nat)
    (_hpos : 0 < bytes.length) (hshort : bytes.length < header_size) :
    read_packet t (.data bytes) running = (running, [.short_read], none) := by
  simp only [read_packet, if_pos hshort]

/-- Witness for C9 on the one-byte frame `[7]`. -/
theorem C9_short_frame_dropped_witness :
    0 < [7].length ∧ [7].length < header_size ∧
    read_packet ⟨3, 4, 5⟩ (.data [7]) true = (true, [.short_read], none) :=
  ⟨by decide, by decide, C9_short_frame_dropped ⟨3, 4, 5⟩ true [7] (by decide) (by decide)⟩

/-- The same frame with the two flags bytes replaced by zero; used to
compare the handling of a nonzero-flags frame with its zero-flags twin. -/
def zero_flags (bytes : List Nat) : List Nat := 0 :: 0 :: bytes.drop 2

theorem zero_flags_length (bytes : List Nat) (h : 2 ≤ bytes.length) :
    (zero_flags bytes).length = bytes.length := by
  simp [zero_flags]
  omega

theorem tun_pi_flags_zero_flags (bytes : List Nat) :
    tun_pi_flags (zero_flags bytes) = 0 := by
  simp [tun_pi_flags, zero_flags]

theorem tun_pi_proto_zero_flags (bytes : List Nat) :
    tun_pi_proto (zero_flags bytes) = tun_pi_proto bytes := by
  simp [tun_pi_proto, zero_flags, List.getD_eq_getElem?_getD, List.getElem?_drop]

theorem zero_flags_drop (bytes : List Nat) :
    (zero_flags bytes).drop header_size = bytes.drop header_size := by
  simp only [zero_flags, header_size, List.drop_succ_cons, List.drop_drop]

/-- Counterexample to claim C10: the frame `[1, 0, 0x12, 0x34]` is long
enough and has nonzero flags, yet it IS dropped — no translator call is
made — because its protocol tag `0x1234` is neither IPv4 nor IPv6.  So
"every nonzero-flags frame of sufficient length is not dropped" is false;
only the flags themselves never cause a drop. -/
theorem C10_counterexample :
    tun_pi_flags [1, 0, 0x12, 0x34] ≠ 0 ∧
    header_size ≤ [1, 0, 0x12, 0x34].length ∧
    (read_packet ⟨3, 4, 5⟩ (.data [1, 0, 0x12, 0x34]) true).2.2 = none := by
  refine ⟨by decide, by decide, ?_⟩
  rfl

/-- Claim C10 as amended: a frame at least as long as the framing header
with nonzero flags gets an extra warning log, and is otherwise handled
exactly as the same frame with the flags zeroed — same effect on the
running flag and the same translator call (dispatch for IPv4/IPv6 tags,
drop for any other tag); the nonzero flags alone never cause a drop. -/
theorem C10_amended_flags_warn_only (t : tun_data) (running : Bool)
    (bytes : List Nat) (h : header_size ≤ bytes.length) :
    (tun_pi_flags bytes ≠ 0 →
      LogEvent.unexpected_flags ∈ (read_packet t (.data bytes) running).2.1) ∧
    (read_packet t (.data bytes) running).1 =
      (read_packet t (.data (zero_flags bytes)) running).1 ∧
    (read_packet t (.data bytes) running).2.2 =
      (read_packet t (.data (zero_flags bytes)) running).2.2 := by
  have hlen : (zero_flags bytes).length = bytes.length :=
    zero_flags_length bytes (by simp [header_size] at h; omega)
  refine ⟨?_, ?_, ?_⟩ <;>
    simp only [read_packet, hlen, tun_pi_flags_zero_flags,
      tun_pi_proto_zero_flags, zero_flags_drop] <;>
    intros <;> split_ifs <;> first | rfl | omega | simp_all

/-- Witness for the amended C10 on the nonzero-flags IPv4-tagged frame
`[1, 0, 0x08, 0x00, 9]`. -/
theorem C10_amended_flags_warn_only_witness :
    header_size ≤ [1, 0, 8, 0, 9].length ∧
    ((tun_pi_flags [1, 0, 8, 0, 9] ≠ 0 →
      LogEvent.unexpected_flags ∈
        (read_packet ⟨3, 4, 5⟩ (.data [1, 0, 8, 0, 9]) true).2.1) ∧
    (read_packet ⟨3, 4, 5⟩ (.data [1, 0, 8, 0, 9]) true).1 =
      (read_packet ⟨3, 4, 5⟩ (.data (zero_flags [1, 0, 8, 0, 9])) true).1 ∧
    (read_packet ⟨3, 4, 5⟩ (.data [1, 0, 8, 0, 9]) true).2.2 =
      (read_packet ⟨3, 4, 5⟩ (.data (zero_flags [1, 0, 8, 0, 9])) true).2.2) :=
  ⟨by decide, C10_amended_flags_warn_only ⟨3, 4, 5⟩ true [1, 0, 8, 0, 9] (by decide)⟩

/-! ## event_loop (clatd.c lines 371-405) -/

/-- Outcome of one `poll(wait_fd, 2, ...)` call: `-1` with an errno
(`intr` records whether it was `EINTR`), or readiness of the two
descriptors.  `r6`/`r4` are `some` read outcome exactly when `POLLIN` was
reported for `read_fd6` respectively `fd4`. -/
inductive PollResult where
| fail : Bool → PollResult
| ready : Option ReadOutcome → Option ReadOutcome → PollResult

/-- The body of one `while(running)` iteration of `event_loop`, without
the trailing `interface_poll` timer step (which never calls the
translator; it is modelled separately by `interface_poll` below).  On a
poll failure nothing is read; otherwise `read_packet` is run for each
ready descriptor in array order — note the second read happens even if
the first one cleared `running`.  Returns the `running` flag after the
body and the translator calls made, in order. -/
def event_loop_body (t : tun_data) (running : Bool) (p : PollResult) :
    Bool × List TranslateCall :=
  match p with
  | .fail _ => (running, [])
  | .ready r6 r4 =>
    let s1 : Bool × Option TranslateCall :=
      match r6 with
      | none => (running, none)
      | some r => ((read_packet t r running).1, (read_packet t r running).2.2)
    let s2 : Bool × Option TranslateCall :=
      match r4 with
      | none => (s1.1, none)
      | some r => ((read_packet t r s1.1).1, (read_packet t r s1.1).2.2)
    (s2.1, s1.2.toList ++ s2.2.toList)

/-- The `while(running)` loop of `event_loop`, driven by a finite list of
per-iteration poll outcomes; returns every translator call dispatched
before the loop observes `running = false` at an iteration boundary. -/
def event_loop (t : tun_data) (running : Bool) : List PollResult → List TranslateCall
  | [] => []
  | p :: rest =>
    if running then
      (event_loop_body t running p).2 ++
        event_loop t (event_loop_body t running p).1 rest
    else []

/-- Whether a poll outcome contains a zero-length read on either device. -/
def has_eof_read : PollResult → Bool
  | .fail _ => false
  | .ready r6 r4 =>
    (match r6 with | some .eof => true | _ => false) ||
    (match r4 with | some .eof => true | _ => false)

theorem read_packet_running_false (t : tun_data) (r : ReadOutcome) :
    (read_packet t r false).1 = false := by
  cases r with
  | err => rfl
  | eof => rfl
  | data bytes =>
    simp only [read_packet]
    split_ifs <;> rfl

theorem read_packet_eof_running (t : tun_data) (running : Bool) :
    (read_packet t .eof running).1 = false := rfl

theorem event_loop_stopped (t : tun_data) (ps : List PollResult) :
    event_loop t false ps = [] := by
  cases ps <;> simp [event_loop]

/-- Claim C6: an iteration containing a zero-length read from either
virtual device leaves the running flag cleared, so the loop stops at the
next iteration boundary: the full dispatch trace is exactly the calls of
that iteration, and no later poll outcome — whatever it contains — ever
produces another translator call. -/
theorem C6_eof_stops_loop (t : tun_data) (p : PollResult) (rest : List PollResult)
    (h : has_eof_read p = true) :
    (event_loop_body t true p).1 = false ∧
    event_loop t true (p :: rest) = (event_loop_body t true p).2 := by
  have hbody : (event_loop_body t true p).1 = false := by
    cases p with
    | fail i => simp [has_eof_read] at h
    | ready r6 r4 =>
      simp only [event_loop_body]
      cases r6 with
      | none =>
        cases r4 with
        | none => simp [has_eof_read] at h
        | some r =>
          cases r with
          | err => simp [has_eof_read] at h
          | eof => rfl
          | data bytes => simp [has_eof_read] at h
      | some r =>
        cases r with
        | eof =>
          cases r4 with
          | none => rfl
          | some r2 => exact read_packet_running_false t r2
        | err =>
          cases r4 with
          | none => simp [has_eof_read] at h
          | some r2 =>
            cases r2 with
            | eof => rfl
            | err => simp [has_eof_read] at h
            | data bytes => simp [has_eof_read] at h
        | data bytes =>
          cases r4 with
          | none => simp [has_eof_read] at h
          | some r2 =>
            cases r2 with
            | eof => rfl
            | err => simp [has_eof_read] at h
            | data bytes2 => simp [has_eof_read] at h
  refine ⟨hbody, ?_⟩
  simp [event_loop, hbody, event_loop_stopped]

/-- Witness for C6: the IPv6-side device reports end-of-file while an
IPv4-tagged frame is simultaneously ready on the other device; the loop
dispatches that frame and then stops, ignoring the remaining iteration. -/
theorem C6_eof_stops_loop_witness :
    has_eof_read (.ready (some .eof) (some (.data [0, 0, 8, 0, 9]))) = true ∧
    ((event_loop_body ⟨3, 4, 5⟩ true
        (.ready (some .eof) (some (.data [0, 0, 8, 0, 9])))).1 = false ∧
    event_loop ⟨3, 4, 5⟩ true
        [.ready (some .eof) (some (.data [0, 0, 8, 0, 9])),
         .ready (some (.data [0, 0, 8, 0, 7])) none] =
      (event_loop_body ⟨3, 4, 5⟩ true
        (.ready (some .eof) (some (.data [0, 0, 8, 0, 9])))).2) :=
  ⟨by decide,
   C6_eof_stops_loop ⟨3, 4, 5⟩ (.ready (some .eof) (some (.data [0, 0, 8, 0, 9])))
     [.ready (some (.data [0, 0, 8, 0, 7])) none] (by decide)⟩

/-! ## interface_poll (clatd.c lines 151-177) -/

/-- The externally visible steps of `interface_poll`, in execution order:
`route_delete` is `deconfigure_tun_ipv6` (a `/128 ROUTE_DELETE` for the
given subnet), `set_subnet` is the `memcpy` overwriting
`Global_Clatd_Config.ipv6_local_subnet`, and `route_create` is
`configure_tun_ipv6` (a `/128 ROUTE_CREATE`). -/
inductive RouteOp where
| route_delete : Nat → RouteOp
| set_subnet : Nat → RouteOp
| route_create : Nat → RouteOp
deriving DecidableEq

/-- Embedding of `interface_poll`.  `genSubnet` stands for
`config_generate_local_ipv6_subnet` (defined in config.c, outside this
file; modelled from the spec as an arbitrary derivation of the local
/64-based subnet from the uplink address, applied in place to the queried
address).  `cfgSubnet` is `Global_Clatd_Config.ipv6_local_subnet` on
entry, `uplink` the result of `getinterface_ip` (`none` when the uplink
has no IPv6 address; the function then only logs a warning and returns).
IPv6 addresses are modelled as their 128-bit values.  Returns the subnet
field on exit and the trace of route/state operations performed. -/
def interface_poll (genSubnet : Nat → Nat) (cfgSubnet : Nat)
    (uplink : Option Nat) : Nat × List RouteOp :=
  match uplink with
  | none => (cfgSubnet, [])
  | some ip =>
    let derived := genSubnet ip
    if derived ≠ cfgSubnet then
      (derived, [.route_delete cfgSubnet, .set_subnet derived, .route_create derived])
    else
      (cfgSubnet, [])

/-- Claim C2: when the uplink reports an address whose derived subnet
differs from the configured one, the poll performs exactly, in order: one
removal of the old /128 route, one overwrite of the in-memory subnet with
the new value, one installation of the new /128 route; when the uplink
reports no IPv6 address, the subnet field is unchanged and no route
operation happens. -/
theorem C2_prefix_change (genSubnet : Nat → Nat) (cfgSubnet ip : Nat)
    (h : genSubnet ip ≠ cfgSubnet) :
    interface_poll genSubnet cfgSubnet (some ip) =
      (genSubnet ip,
        [.route_delete cfgSubnet, .set_subnet (genSubnet ip),
         .route_create (genSubnet ip)]) ∧
    interface_poll genSubnet cfgSubnet none = (cfgSubnet, []) := by
  constructor
  · simp [interface_poll, h]
  · rfl

/-- Witness for C2 with the identity derivation, configured subnet 0 and
uplink address 1. -/
theorem C2_prefix_change_witness :
    (fun x : Nat => x) 1 ≠ 0 ∧
    (interface_poll (fun x => x) 0 (some 1) =
      (1, [.route_delete 0, .set_subnet 1, .route_create 1]) ∧
    interface_poll (fun x => x) 0 none = (0, [])) :=
  ⟨by decide, C2_prefix_change (fun x => x) 0 1 (by decide)⟩

/-! ## drop_root (clatd.c lines 218-249) -/

/-- `AID_INET` from android_filesystem_config.h. -/
def AID_INET : Nat := 3003

/-- `AID_CLAT` from android_filesystem_config.h. -/
def AID_CLAT : Nat := 1029

/-- `CAP_NET_ADMIN` from linux/capability.h. -/
def CAP_NET_ADMIN : Nat := 12

/-- The system calls `drop_root` issues, in source order.  `capset`
records the effective and permitted capability masks requested. -/
inductive Syscall where
| setgroups : List Nat → Syscall
| prctl_keepcaps : Syscall
| setgid : Nat → Syscall
| setuid : Nat → Syscall
| capset : Nat → Nat → Syscall
deriving DecidableEq

/-- Embedding of `drop_root`.  Each `ok*` argument is whether the
corresponding system call succeeds.  Returns the trace of calls attempted
and `true` when the function runs to completion, `false` when it hits a
`logmsg(FATAL); exit(1)` path.  The return value of
`prctl(PR_SET_KEEPCAPS, 1, 0, 0, 0)` is not inspected by the source, so
the `prctl` success argument is unused. -/
def drop_root (okSetgroups _okPrctl okSetgid okSetuid okCapset : Bool) :
    List Syscall × Bool :=
  let t1 := [Syscall.setgroups [AID_INET]]
  if !okSetgroups then (t1, false) else
  let t2 := t1 ++ [Syscall.prctl_keepcaps]
  let t3 := t2 ++ [Syscall.setgid AID_CLAT]
  if !okSetgid then (t3, false) else
  let t4 := t3 ++ [Syscall.setuid AID_CLAT]
  if !okSetuid then (t4, false) else
  let t5 := t4 ++ [Syscall.capset (2 ^ CAP_NET_ADMIN) (2 ^ CAP_NET_ADMIN)]
  if !okCapset then (t5, false) else (t5, true)

/-- Counterexample to claim C8: when the keep-capabilities `prctl` step
fails but every other step succeeds, `drop_root` still runs to completion
— the source never checks `prctl`'s return value, so a failure of that
step is not fatal, contradicting "a failure of any step in this sequence
is fatal". -/
theorem C8_counterexample :
    (drop_root true false true true true).2 = true ∧
    (drop_root true false true true true).1 =
      [.setgroups [AID_INET], .prctl_keepcaps, .setgid AID_CLAT,
       .setuid AID_CLAT, .capset (2 ^ CAP_NET_ADMIN) (2 ^ CAP_NET_ADMIN)] := by
  constructor <;> rfl

/-- Claim C8 as amended: the privilege-drop sequence is, in order,
`setgroups` to the fixed networking group, the keep-capabilities `prctl`,
`setgid`, `setuid`, then `capset` to exactly the single
network-administration capability; a failure of `setgroups`, `setgid`,
`setuid` or `capset` is fatal, but the `prctl` step's return value is not
checked, so its failure is not. -/
theorem C8_amended_drop_root (okSetgroups okPrctl okSetgid okSetuid okCapset : Bool) :
    (drop_root okSetgroups okPrctl okSetgid okSetuid okCapset).2 =
      (okSetgroups && okSetgid && okSetuid && okCapset) ∧
    drop_root okSetgroups true okSetgid okSetuid okCapset =
      drop_root okSetgroups false okSetgid okSetuid okCapset ∧
    (drop_root true okPrctl true true true).1 =
      [.setgroups [AID_INET], .prctl_keepcaps, .setgid AID_CLAT,
       .setuid AID_CLAT, .capset (2 ^ CAP_NET_ADMIN) (2 ^ CAP_NET_ADMIN)] := by
  cases okSetgroups <;> cases okPrctl <;> cases okSetgid <;>
    cases okSetuid <;> cases okCapset <;> refine ⟨rfl, rfl, rfl⟩

/-! ## set_forwarding and shutdown (clatd.c lines 64-70 and 502-507) -/

/-- Embedding of `set_forwarding(fd, setting)`: `writeRet` is the return
value of the `write` call; a negative return logs at FATAL severity and
calls `exit(1)`, modelled as `none`. -/
def set_forwarding (writeRet : Int) : Option Unit :=
  if writeRet < 0 then none else some ()

/-- The exit status of `main` from the point where `event_loop` has
returned: `set_forwarding(forwarding_fd, "0\n")` runs, and its failure
path exits with status 1 inside `set_forwarding`; otherwise `main`
returns 0. -/
def shutdown_exit_status (writeRet : Int) : Nat :=
  match set_forwarding writeRet with
  | none => 1
  | some () => 0

/-- Counterexample to claim C7: when the forwarding-disable write fails
(the `write` returns -1), the daemon exits with status 1, not 0 — the
source uses the same fatal `set_forwarding` for shutdown as for startup,
so the disable write is not best-effort. -/
theorem C7_counterexample :
    shutdown_exit_status (-1) = 1 ∧ shutdown_exit_status (-1) ≠ 0 := by
  constructor <;> decide

/-- Claim C7 as amended: a failure of the forwarding-disable write during
shutdown is fatal exactly like the enable path — the process exits with
status 1; only when the write succeeds does the daemon exit with
status 0. -/
theorem C7_amended_shutdown_status (writeRet : Int) :
    shutdown_exit_status writeRet = (if writeRet < 0 then 1 else 0) := by
  simp only [shutdown_exit_status, set_forwarding]
  split_ifs <;> rfl

end Clatd
